import Mathlib

/-!
Shallow embedding of the catscii service (src/main.rs): an HTTP handler that
fetches a cat-image URL from an external API, downloads the image, decodes it
and renders it as HTML ASCII art, instrumented with trace spans.

External I/O (reqwest calls, image decoding, the artem renderer) is modelled by
an explicit environment `Env`; tracing side effects are modelled by an explicit
event log (`Event`) returned alongside each result.
-/

/-- Span and HTTP side effects emitted while handling one request, in order.
`setStatusError span d` models opentelemetry `span.set_status` with an error
status whose description is `d`; `httpGet url` models an outbound
`client.get(url).send()`. -/
inductive AttrVal where
  | str (s : String)
  | int (i : Int)
deriving DecidableEq

inductive Event where
  | spanStart (name : String)
  | spanEnd (name : String)
  | setAttribute (span : String) (key : String) (value : AttrVal)
  | setStatusError (span : String) (description : String)
  | httpGet (url : String)
deriving DecidableEq

/-- JSON values, used for the body of the image-source API response. -/
inductive Json where
  | null
  | bool (b : Bool)
  | num (n : Int)
  | str (s : String)
  | arr (elems : List Json)
  | obj (fields : List (String × Json))

/-- Mirrors the `CatImage` struct of `get_cat_image_url` (main.rs line 137). -/
structure CatImage where
  url : String
deriving DecidableEq

/-- Deserialization of one JSON value into `CatImage`, as serde derives it:
the value must be an object with a string `url` field; other fields are ignored. -/
def deserializeCatImage : Json → Option CatImage
  | Json.obj fields =>
    match fields.lookup "url" with
    | some (Json.str s) => some ⟨s⟩
    | _ => none
  | _ => none

/-- Deserialization of a JSON sequence element by element, in order, as serde
deserializes a `Vec`: the whole sequence fails if any element fails. -/
def deserializeCatImageList : List Json → Option (List CatImage)
  | [] => some []
  | j :: js =>
    match deserializeCatImage j, deserializeCatImageList js with
    | some c, some cs => some (c :: cs)
    | _, _ => none

/-- Deserialization of the response body into `Vec<CatImage>` (main.rs line 148):
the value must be an array and every element must deserialize as a `CatImage`. -/
def deserializeCatImages : Json → Option (List CatImage)
  | Json.arr elems => deserializeCatImageList elems
  | _ => none

/-- Decoded image as exposed by the `image` crate: pixel dimensions (each a `u32`
in the source, hence a natural number) plus opaque pixel data. -/
structure Image where
  width : Nat
  height : Nat
  pixels : List Nat
deriving DecidableEq

/-- Response to the image-source API call: HTTP status plus the body as parsed JSON. -/
structure ApiResp where
  status : Nat
  body : Json

/-- Response to the image-download call: HTTP status plus the raw body bytes. -/
structure DlResp where
  status : Nat
  body : List Nat

/-- Environment standing for the external world of one request. Each `Except
String` failure carries the display text of the library error (reqwest transport
error, image decode error). `render` is the art core of the external artem
renderer (an opaque pure function per the spec). -/
structure Env where
  catApi : Except String ApiResp
  download : String → Except String DlResp
  decode : List Nat → Except String Image
  render : Image → String

/-- Stage tags for pipeline errors: the two outbound HTTP calls. -/
inductive Stage where
  | imageSource
  | download
deriving DecidableEq

/-- Pipeline errors, classifying every failure source of the request pipeline
(in the source these travel as `color_eyre` reports; the constructor records
which call produced the report and the data the report carries). -/
inductive PipelineError where
  | transport (stage : Stage) (msg : String)
  | upstream (stage : Stage) (status : Nat)
  | parse (stage : Stage) (msg : String)
  | emptyResult
  | decodeFailed (msg : String)
deriving DecidableEq

/-- Display text of a pipeline error, as formatting the `color_eyre` report with
`format!` produces it (main.rs line 91): transport, parse and decode reports
display the underlying library error text unchanged; the empty-result report
displays the literal message built at main.rs line 151; upstream status reports
display the status line (modelled from reqwest's `error_for_status` error
display). -/
def errDisplay : PipelineError → String
  | PipelineError.transport _ msg => msg
  | PipelineError.upstream _ st => "HTTP status error (" ++ toString st ++ ")"
  | PipelineError.parse _ msg => msg
  | PipelineError.emptyResult => "The Cat API returned no images"
  | PipelineError.decodeFailed msg => msg

/-- reqwest's `error_for_status` fails exactly on client-error and server-error
statuses (400–599). -/
def isErrorStatus (s : Nat) : Bool := (400 ≤ s && s ≤ 599)

/-- Fixed image-source endpoint (main.rs line 141). -/
def apiUrl : String := "http://api.thecatapi.com/v1/images/search"

/-- Embedding of `get_cat_image_url` (main.rs lines 135–154): GET the fixed API
URL, require a success status, parse the body as `Vec<CatImage>`, `pop()` the
last element (error if the array is empty) and return its `url`. -/
def getCatImageUrl (env : Env) : Except PipelineError String × List Event :=
  (match env.catApi with
   | Except.error msg => Except.error (PipelineError.transport Stage.imageSource msg)
   | Except.ok resp =>
     if isErrorStatus resp.status then
       Except.error (PipelineError.upstream Stage.imageSource resp.status)
     else
       match deserializeCatImages resp.body with
       | none => Except.error (PipelineError.parse Stage.imageSource "error decoding response body")
       | some images =>
         match images.getLast? with
         | none => Except.error PipelineError.emptyResult
         | some img => Except.ok img.url,
   [Event.httpGet apiUrl])

/-- Embedding of `download_file` (main.rs lines 156–166): GET the given URL,
require a success status, return the body bytes. -/
def downloadFile (env : Env) (url : String) : Except PipelineError (List Nat) × List Event :=
  (match env.download url with
   | Except.error msg => Except.error (PipelineError.transport Stage.download msg)
   | Except.ok resp =>
     if isErrorStatus resp.status then
       Except.error (PipelineError.upstream Stage.download resp.status)
     else
       Except.ok resp.body,
   [Event.httpGet url])

/-- Name of the decode span (main.rs line 114). -/
def decodeSpanName : String := "image::load_from_memory"

/-- Embedding of the decode step (main.rs lines 114–121): inside the span
`image::load_from_memory`, decode the bytes; on success record `width` and
`height` (each a `u32` cast to `i64`, hence `Int.ofNat`) as span attributes;
on failure the error propagates out of the span. The span closes on both paths. -/
def decodeStep (env : Env) (bytes : List Nat) : Except PipelineError Image × List Event :=
  match env.decode bytes with
  | Except.error msg =>
    (Except.error (PipelineError.decodeFailed msg),
     [Event.spanStart decodeSpanName, Event.spanEnd decodeSpanName])
  | Except.ok img =>
    (Except.ok img,
     [Event.spanStart decodeSpanName,
      Event.setAttribute decodeSpanName "width" (AttrVal.int (Int.ofNat img.width)),
      Event.setAttribute decodeSpanName "height" (AttrVal.int (Int.ofNat img.height)),
      Event.spanEnd decodeSpanName])

/-- Modelled from the spec: the external artem renderer (`artem::convert` with
`TargetType::HtmlFile`, main.rs lines 123–130, not part of this repository)
produces a self-contained HTML document wrapping the rendered art. -/
def artemConvert (env : Env) (img : Image) : String :=
  "<!DOCTYPE html><html><body><pre>" ++ env.render img ++ "</pre></body></html>"

/-- Embedding of `get_cat_ascii_art` (main.rs lines 99–133): run the four stages
strictly in sequence under their own child spans, propagating the first error
(`?` operator); on full success return the rendered markup. -/
def getCatAsciiArt (env : Env) : Except PipelineError String × List Event :=
  let log1 := [Event.spanStart "get_cat_image_url"] ++ (getCatImageUrl env).2
    ++ [Event.spanEnd "get_cat_image_url"]
  match (getCatImageUrl env).1 with
  | Except.error e => (Except.error e, log1)
  | Except.ok url =>
    let log2 := log1 ++ [Event.spanStart "download_file"] ++ (downloadFile env url).2
      ++ [Event.spanEnd "download_file"]
    match (downloadFile env url).1 with
    | Except.error e => (Except.error e, log2)
    | Except.ok bytes =>
      let log3 := log2 ++ (decodeStep env bytes).2
      match (decodeStep env bytes).1 with
      | Except.error e => (Except.error e, log3)
      | Except.ok img =>
        (Except.ok (artemConvert env img),
         log3 ++ [Event.spanStart "artem::convert", Event.spanEnd "artem::convert"])

/-- Client-visible HTTP response. -/
structure HttpResponse where
  status : Nat
  contentType : Option String
  body : String
deriving DecidableEq

/-- Embedding of `root_get_inner` (main.rs lines 73–97): run the pipeline under
the span `get_cat_ascii_art`; on success respond 200 `text/html; charset=utf-8`
with the markup; on failure mark the active span of the ambient context
(`ctxSpan`, set by the caller) with the error's display text and respond 500
with the fixed body (axum gives a `&str` body content type `text/plain`). -/
def rootGetInner (env : Env) (ctxSpan : String) : HttpResponse × List Event :=
  let log := [Event.spanStart "get_cat_ascii_art"] ++ (getCatAsciiArt env).2
    ++ [Event.spanEnd "get_cat_ascii_art"]
  match (getCatAsciiArt env).1 with
  | Except.ok art => (⟨200, some "text/html; charset=utf-8", art⟩, log)
  | Except.error e =>
    (⟨500, some "text/plain; charset=utf-8", "Something went wrong"⟩,
     log ++ [Event.setStatusError ctxSpan (errDisplay e)])

/-- Lowercased name of the user-agent header (http normalizes header names). -/
def userAgentName : String := "user-agent"

/-- Byte predicate of the http crate's `HeaderValue::to_str`: visible ASCII or
horizontal tab. -/
def visibleAscii (b : Nat) : Bool := (32 ≤ b && b ≤ 126) || b == 9

/-- Models `HeaderValue::to_str` (main.rs line 64): succeeds, returning the same
bytes as text, iff every byte is visible ASCII or tab. -/
def headerToStr (v : List Nat) : Option (List Nat) :=
  if v.all visibleAscii then some v else none

/-- Header lookup by (normalized) name, first match, as `HeaderMap::get`. -/
def lookupHeader (headers : List (String × List Nat)) (name : String) : Option (List Nat) :=
  headers.lookup name

/-- Bytes of the `user_agent` attribute value computed at main.rs lines 62–65:
`headers.get(USER_AGENT).map(|h| h.to_str().unwrap_or_default().to_owned()).unwrap_or_default()`. -/
def userAgentAttrBytes (headers : List (String × List Nat)) : List Nat :=
  match lookupHeader headers userAgentName with
  | none => []
  | some v => (headerToStr v).getD []

/-- Text built from ASCII byte values (the attribute value is a Rust `String`). -/
def bytesToString (v : List Nat) : String :=
  String.mk (v.map Char.ofNat)

/-- Embedding of `root_get` (main.rs lines 57–71): open the root span
`root_get`, set its `user_agent` attribute from the request headers, then run
`root_get_inner` with that span as the ambient context. -/
def rootGet (env : Env) (headers : List (String × List Nat)) : HttpResponse × List Event :=
  let inner := rootGetInner env "root_get"
  (inner.1,
   [Event.spanStart "root_get",
    Event.setAttribute "root_get" "user_agent"
      (AttrVal.str (bytesToString (userAgentAttrBytes headers)))]
   ++ inner.2 ++ [Event.spanEnd "root_get"])

/-- Outcome of dispatching a request: a normal response, or a panic of the
handler task (never converted to a response by the pipeline's error handling). -/
inductive HandlerOutcome where
  | response (r : HttpResponse)
  | panicked (msg : String)
deriving DecidableEq

/-- Whether the outcome is a normal HTTP response. -/
def isResponse : HandlerOutcome → Bool
  | HandlerOutcome.response _ => true
  | HandlerOutcome.panicked _ => false

/-- Embedding of the `/panic` handler (main.rs line 47): it unconditionally
panics with the fixed message and produces no response. -/
def panicGet : HandlerOutcome := HandlerOutcome.panicked "This is a test panic"

/-- Embedding of the router (main.rs lines 45–47): `/` is served by `root_get`,
`/panic` by the panicking handler. -/
def route (env : Env) (headers : List (String × List Nat)) (path : String) :
    Option HandlerOutcome :=
  if path = "/" then some (HandlerOutcome.response (rootGet env headers).1)
  else if path = "/panic" then some panicGet
  else none

/-- Whether an event is a span status-error marking. -/
def isStatusEvent : Event → Bool
  | Event.setStatusError _ _ => true
  | _ => false

/-! Concrete sample worlds used to instantiate the theorems below. -/

/-- Stand-in bytes of a downloadable image. -/
def pngBytes : List Nat := [137, 80, 78, 71]

/-- Image-source body with one object carrying a `url` field. -/
def catJson : Json := Json.arr [Json.obj [("url", Json.str "http://x/cat.png")]]

/-- Decoded 10-by-10 sample image. -/
def img10 : Image := ⟨10, 10, pngBytes⟩

/-- World where every stage succeeds and the image decodes as 10-by-10. -/
def envHappy : Env where
  catApi := Except.ok ⟨200, catJson⟩
  download := fun u => if u = "http://x/cat.png" then Except.ok ⟨200, pngBytes⟩
    else Except.error "dns error"
  decode := fun b => if b = pngBytes then Except.ok img10
    else Except.error "unsupported image format"
  render := fun img => "ascii cat " ++ toString img.width

/-- World where the image-source API answers 200 with an empty JSON array. -/
def envEmptyList : Env where
  catApi := Except.ok ⟨200, Json.arr []⟩
  download := fun _ => Except.error "unreachable"
  decode := fun _ => Except.error "unreachable"
  render := fun _ => ""

/-- World where the image-source API answers with status 404. -/
def env404 : Env where
  catApi := Except.ok ⟨404, Json.null⟩
  download := fun _ => Except.error "unreachable"
  decode := fun _ => Except.error "unreachable"
  render := fun _ => ""

/-- World where the image host answers with status 404. -/
def envDl404 : Env where
  catApi := Except.ok ⟨200, catJson⟩
  download := fun _ => Except.ok ⟨404, []⟩
  decode := fun _ => Except.error "unreachable"
  render := fun _ => ""

/-- World where the image download fails at the transport level with a raw
reqwest error display text. -/
def envConnReset : Env where
  catApi := Except.ok ⟨200, catJson⟩
  download := fun _ =>
    Except.error "error sending request for url (http://x/cat.png): connection reset by peer"
  decode := fun _ => Except.error "unreachable"
  render := fun _ => ""

/-- World where the downloaded bytes do not decode as an image. -/
def envBadImage : Env where
  catApi := Except.ok ⟨200, catJson⟩
  download := fun u => if u = "http://x/cat.png" then Except.ok ⟨200, [0]⟩
    else Except.error "dns error"
  decode := fun _ => Except.error "The image format could not be determined"
  render := fun _ => ""

/-! Helper lemmas. -/

/-- Every exit path of `getCatImageUrl` performs exactly the one GET to the
fixed API URL. -/
theorem getCatImageUrl_log (env : Env) : (getCatImageUrl env).2 = [Event.httpGet apiUrl] := rfl

/-- Every exit path of `downloadFile` performs exactly the one GET to the
given URL. -/
theorem downloadFile_log (env : Env) (url : String) :
    (downloadFile env url).2 = [Event.httpGet url] := rfl

/-- Rendered markup is never the empty string: the HTML document shell is
non-empty whatever the art core returns. -/
theorem artemConvert_ne_empty (env : Env) (img : Image) : artemConvert env img ≠ "" := by
  unfold artemConvert
  intro h
  have hlen := congrArg String.length h
  rw [String.length_append, String.length_append] at hlen
  have h1 : String.length "<!DOCTYPE html><html><body><pre>" = 32 := rfl
  have h2 : String.length "</pre></body></html>" = 20 := rfl
  have h3 : String.length "" = 0 := rfl
  omega

/-- Element-wise deserialization sends the last source element to the last
deserialized element. -/
theorem deserializeCatImageList_getLast :
    ∀ (js : List Json) (cs : List CatImage), deserializeCatImageList js = some cs →
    ∀ j, js.getLast? = some j →
    ∃ c, deserializeCatImage j = some c ∧ cs.getLast? = some c := by
  intro js
  induction js with
  | nil => intro cs _ j hj; simp at hj
  | cons a as ih =>
    intro cs hcs j hj
    unfold deserializeCatImageList at hcs
    rcases ha : deserializeCatImage a with _ | c
    · rw [ha] at hcs; simp at hcs
    · rw [ha] at hcs
      rcases has : deserializeCatImageList as with _ | cs'
      · rw [has] at hcs; simp at hcs
      · rw [has] at hcs
        simp at hcs
        subst hcs
        rcases as with _ | ⟨a2, as2⟩
        · unfold deserializeCatImageList at has
          simp at has
          subst has
          simp at hj
          subst hj
          exact ⟨c, ha, rfl⟩
        · have hj' : (a2 :: as2).getLast? = some j := by
            rw [← hj, List.getLast?_cons_cons]
          rcases ih cs' has j hj' with ⟨c', hc', hcs'⟩
          refine ⟨c', hc', ?_⟩
          rcases cs' with _ | ⟨c2, cs2⟩
          · simp at hcs'
          · rw [List.getLast?_cons_cons]
            exact hcs'

/-- C1: whenever any pipeline stage fails, `GET /` responds 500 with body
exactly "Something went wrong" (a plain-text body); no stage name, URL or
upstream error text reaches the client. -/
theorem root_get_error_response (env : Env) (headers : List (String × List Nat))
    (e : PipelineError) (h : (getCatAsciiArt env).1 = Except.error e) :
    (rootGet env headers).1.status = 500 ∧
    (rootGet env headers).1.body = "Something went wrong" ∧
    (rootGet env headers).1.contentType = some "text/plain; charset=utf-8" := by
  unfold rootGet rootGetInner
  simp [h]

theorem root_get_error_response_witness :
    (getCatAsciiArt envEmptyList).1 = Except.error PipelineError.emptyResult ∧
    ((rootGet envEmptyList []).1.status = 500 ∧
     (rootGet envEmptyList []).1.body = "Something went wrong" ∧
     (rootGet envEmptyList []).1.contentType = some "text/plain; charset=utf-8") :=
  ⟨rfl, root_get_error_response envEmptyList [] PipelineError.emptyResult rfl⟩

/-- C2: whenever every pipeline stage succeeds (API answers with a success
status and a parseable non-empty array, the download succeeds, the bytes
decode), `GET /` responds 200 with content type `text/html; charset=utf-8` and
a non-empty body equal to the renderer's markup. -/
theorem root_get_success_response (env : Env) (headers : List (String × List Nat))
    (resp : ApiResp) (images : List CatImage) (img0 : CatImage) (dlr : DlResp) (img : Image)
    (h1 : env.catApi = Except.ok resp)
    (h2 : isErrorStatus resp.status = false)
    (h3 : deserializeCatImages resp.body = some images)
    (h4 : images.getLast? = some img0)
    (h5 : env.download img0.url = Except.ok dlr)
    (h6 : isErrorStatus dlr.status = false)
    (h7 : env.decode dlr.body = Except.ok img) :
    (rootGet env headers).1 = ⟨200, some "text/html; charset=utf-8", artemConvert env img⟩ ∧
    (rootGet env headers).1.body ≠ "" := by
  have hurl : (getCatImageUrl env).1 = Except.ok img0.url := by
    unfold getCatImageUrl
    simp [h1, h2, h3, h4]
  have hdl : (downloadFile env img0.url).1 = Except.ok dlr.body := by
    unfold downloadFile
    simp [h5, h6]
  have hdec : (decodeStep env dlr.body).1 = Except.ok img := by
    unfold decodeStep
    simp [h7]
  have hpipe : (getCatAsciiArt env).1 = Except.ok (artemConvert env img) := by
    unfold getCatAsciiArt
    simp [hurl, hdl, hdec]
  have hresp : (rootGet env headers).1
      = ⟨200, some "text/html; charset=utf-8", artemConvert env img⟩ := by
    unfold rootGet rootGetInner
    simp [hpipe]
  refine ⟨hresp, ?_⟩
  rw [hresp]
  exact artemConvert_ne_empty env img

theorem root_get_success_response_witness :
    envHappy.catApi = Except.ok ⟨200, catJson⟩ ∧
    envHappy.download "http://x/cat.png" = Except.ok ⟨200, pngBytes⟩ ∧
    envHappy.decode pngBytes = Except.ok img10 ∧
    ((rootGet envHappy []).1
       = ⟨200, some "text/html; charset=utf-8", artemConvert envHappy img10⟩ ∧
     (rootGet envHappy []).1.body ≠ "") :=
  ⟨rfl, rfl, rfl,
   root_get_success_response envHappy [] ⟨200, catJson⟩ [⟨"http://x/cat.png"⟩]
     ⟨"http://x/cat.png"⟩ ⟨200, pngBytes⟩ img10 rfl rfl rfl rfl rfl rfl rfl⟩

/-- C3: when the image-source body is a JSON array whose elements all
deserialize as objects with a `url` field, `get_cat_image_url` returns exactly
the `url` of the last element of the array; when the array is empty it returns
the empty-result error and no URL. -/
theorem get_cat_image_url_selects_last (env : Env) (resp : ApiResp) (elems : List Json)
    (h1 : env.catApi = Except.ok resp)
    (h2 : isErrorStatus resp.status = false)
    (h3 : resp.body = Json.arr elems) :
    (∀ cs c, deserializeCatImageList elems = some cs → cs.getLast? = some c →
       (getCatImageUrl env).1 = Except.ok c.url ∧
       ∃ j, elems.getLast? = some j ∧ deserializeCatImage j = some c) ∧
    (elems = [] → (getCatImageUrl env).1 = Except.error PipelineError.emptyResult) := by
  constructor
  · intro cs c hcs hc
    have helems : elems ≠ [] := by
      intro he
      subst he
      unfold deserializeCatImageList at hcs
      have hcs' : cs = [] := by
        injection hcs with h
        exact h.symm
      subst hcs'
      simp at hc
    have hj : ∃ j, elems.getLast? = some j := by
      rcases hgl : elems.getLast? with _ | j
      · exact absurd (List.getLast?_eq_none_iff.mp hgl) helems
      · exact ⟨j, rfl⟩
    rcases hj with ⟨j, hj⟩
    rcases deserializeCatImageList_getLast elems cs hcs j hj with ⟨c', hc', hlast⟩
    have hcc : c' = c := by
      rw [hc] at hlast
      injection hlast with h
      exact h.symm
    subst hcc
    refine ⟨?_, j, hj, hc'⟩
    unfold getCatImageUrl
    simp [h1, h2, h3, deserializeCatImages, hcs, hc]
  · intro he
    subst he
    unfold getCatImageUrl
    simp [h1, h2, h3, deserializeCatImages, deserializeCatImageList]

theorem get_cat_image_url_selects_last_witness :
    ((getCatImageUrl envHappy).1 = Except.ok (CatImage.mk "http://x/cat.png").url ∧
     ∃ j, [Json.obj [("url", Json.str "http://x/cat.png")]].getLast? = some j ∧
       deserializeCatImage j = some ⟨"http://x/cat.png"⟩) ∧
    (getCatImageUrl envEmptyList).1 = Except.error PipelineError.emptyResult :=
  ⟨(get_cat_image_url_selects_last envHappy ⟨200, catJson⟩
      [Json.obj [("url", Json.str "http://x/cat.png")]] rfl rfl rfl).1
      [⟨"http://x/cat.png"⟩] ⟨"http://x/cat.png"⟩ rfl rfl,
   (get_cat_image_url_selects_last envEmptyList ⟨200, Json.arr []⟩ [] rfl rfl rfl).2 rfl⟩

/-- C4: the pipeline stages run strictly in sequence and fail fast: the
download span only opens after the image-source stage returned a URL, the
decode span only opens after the download returned bytes, and when the
image-source API answers with an empty array the only outbound request of the
whole run is the one to the fixed API URL (no download is attempted). -/
theorem pipeline_fail_fast (env : Env) :
    (Event.spanStart "download_file" ∈ (getCatAsciiArt env).2 →
       ∃ url, (getCatImageUrl env).1 = Except.ok url) ∧
    (Event.spanStart decodeSpanName ∈ (getCatAsciiArt env).2 →
       ∃ url bytes, (getCatImageUrl env).1 = Except.ok url ∧
         (downloadFile env url).1 = Except.ok bytes) ∧
    (∀ resp, env.catApi = Except.ok resp → resp.body = Json.arr [] →
       ∀ u, Event.httpGet u ∈ (getCatAsciiArt env).2 → u = apiUrl) := by
  rcases h1 : (getCatImageUrl env).1 with e | url
  · have hlog : (getCatAsciiArt env).2 = [Event.spanStart "get_cat_image_url",
        Event.httpGet apiUrl, Event.spanEnd "get_cat_image_url"] := by
      unfold getCatAsciiArt
      simp [h1, getCatImageUrl_log]
    refine ⟨?_, ?_, ?_⟩
    · intro hmem
      rw [hlog] at hmem
      simp at hmem
    · intro hmem
      rw [hlog] at hmem
      simp [decodeSpanName] at hmem
    · intro resp hapi hbody u hmem
      rw [hlog] at hmem
      simp at hmem
      exact hmem
  · have hempty : ∀ resp, env.catApi = Except.ok resp → resp.body = Json.arr [] → False := by
      intro resp hapi hbody
      unfold getCatImageUrl at h1
      rcases hst : isErrorStatus resp.status with _ | _
      · simp [hapi, hbody, hst, deserializeCatImages, deserializeCatImageList] at h1
      · simp [hapi, hbody, hst] at h1
    refine ⟨fun _ => ⟨url, rfl⟩, ?_, fun resp hapi hbody => (hempty resp hapi hbody).elim⟩
    intro hmem
    rcases h2 : (downloadFile env url).1 with e2 | bytes
    · have hlog : (getCatAsciiArt env).2 = [Event.spanStart "get_cat_image_url",
          Event.httpGet apiUrl, Event.spanEnd "get_cat_image_url",
          Event.spanStart "download_file", Event.httpGet url, Event.spanEnd "download_file"] := by
        unfold getCatAsciiArt
        simp [h1, h2, getCatImageUrl_log, downloadFile_log]
      rw [hlog] at hmem
      simp [decodeSpanName] at hmem
    · exact ⟨url, bytes, rfl, h2⟩

theorem pipeline_fail_fast_witness :
    (Event.spanStart "download_file" ∈ (getCatAsciiArt envHappy).2 ∧
     ∃ url, (getCatImageUrl envHappy).1 = Except.ok url) ∧
    (envEmptyList.catApi = Except.ok ⟨200, Json.arr []⟩ ∧
     Event.httpGet apiUrl ∈ (getCatAsciiArt envEmptyList).2 ∧
     ∀ u, Event.httpGet u ∈ (getCatAsciiArt envEmptyList).2 → u = apiUrl) :=
  ⟨⟨by decide, (pipeline_fail_fast envHappy).1 (by decide)⟩,
   ⟨rfl, by decide, fun u => (pipeline_fail_fast envEmptyList).2.2 ⟨200, Json.arr []⟩ rfl rfl u⟩⟩

/-- C5 counterexample: in the world where the download fails at the transport
level, the only span status marking of the whole request carries as its
description exactly the raw library error display text (the reqwest transport
error message held by the environment), on the root span — not a sanitized
description on the failing stage's span. -/
theorem span_status_raw_text_counterexample :
    ((rootGet envConnReset []).2.filter isStatusEvent)
      = [Event.setStatusError "root_get"
          "error sending request for url (http://x/cat.png): connection reset by peer"] ∧
    (getCatAsciiArt envConnReset).1 = Except.error (PipelineError.transport Stage.download
      "error sending request for url (http://x/cat.png): connection reset by peer") := by
  constructor
  · decide
  · rfl

/-- C5 amended: for every pipeline failure, the handler marks the root span
(the active span of `root_get_inner`'s ambient context) with an error status
whose description is the error's display text — which for transport, parse and
decode failures is the underlying library error text, unchanged — before the
500 response is produced. -/
theorem root_span_error_description (env : Env) (headers : List (String × List Nat))
    (e : PipelineError) (h : (getCatAsciiArt env).1 = Except.error e) :
    Event.setStatusError "root_get" (errDisplay e) ∈ (rootGet env headers).2 := by
  unfold rootGet rootGetInner
  simp [h]

theorem root_span_error_description_witness :
    (getCatAsciiArt envConnReset).1 = Except.error (PipelineError.transport Stage.download
      "error sending request for url (http://x/cat.png): connection reset by peer") ∧
    Event.setStatusError "root_get"
        "error sending request for url (http://x/cat.png): connection reset by peer"
      ∈ (rootGet envConnReset []).2 :=
  ⟨rfl, root_span_error_description envConnReset [] (PipelineError.transport Stage.download
      "error sending request for url (http://x/cat.png): connection reset by peer") rfl⟩

/-- C6: every pipeline failure is a tagged value of the stage-carrying error
taxonomy (transport, upstream, parse, empty-result, decode); in particular a
non-success HTTP status from the image-source API or from the image host
yields an upstream error tagged with that stage and status. -/
theorem pipeline_error_taxonomy (env : Env) :
    (∀ e, (getCatAsciiArt env).1 = Except.error e →
       (∃ s m, e = PipelineError.transport s m) ∨
       (∃ s st, e = PipelineError.upstream s st) ∨
       (∃ s m, e = PipelineError.parse s m) ∨
       e = PipelineError.emptyResult ∨
       (∃ m, e = PipelineError.decodeFailed m)) ∧
    (∀ resp, env.catApi = Except.ok resp → isErrorStatus resp.status = true →
       (getCatImageUrl env).1
         = Except.error (PipelineError.upstream Stage.imageSource resp.status)) ∧
    (∀ url dlr, env.download url = Except.ok dlr → isErrorStatus dlr.status = true →
       (downloadFile env url).1
         = Except.error (PipelineError.upstream Stage.download dlr.status)) := by
  refine ⟨?_, ?_, ?_⟩
  · intro e _
    rcases e with ⟨s, m⟩ | ⟨s, st⟩ | ⟨s, m⟩ | _ | m
    · exact Or.inl ⟨s, m, rfl⟩
    · exact Or.inr (Or.inl ⟨s, st, rfl⟩)
    · exact Or.inr (Or.inr (Or.inl ⟨s, m, rfl⟩))
    · exact Or.inr (Or.inr (Or.inr (Or.inl rfl)))
    · exact Or.inr (Or.inr (Or.inr (Or.inr ⟨m, rfl⟩)))
  · intro resp hapi hst
    unfold getCatImageUrl
    simp [hapi, hst]
  · intro url dlr hdl hst
    unfold downloadFile
    simp [hdl, hst]

theorem pipeline_error_taxonomy_witness :
    (env404.catApi = Except.ok ⟨404, Json.null⟩ ∧ isErrorStatus 404 = true ∧
     (getCatImageUrl env404).1
       = Except.error (PipelineError.upstream Stage.imageSource 404)) ∧
    (envDl404.download "http://x/cat.png" = Except.ok ⟨404, []⟩ ∧
     (downloadFile envDl404 "http://x/cat.png").1
       = Except.error (PipelineError.upstream Stage.download 404)) :=
  ⟨⟨rfl, rfl, (pipeline_error_taxonomy env404).2.1 ⟨404, Json.null⟩ rfl rfl⟩,
   ⟨rfl, (pipeline_error_taxonomy envDl404).2.2 "http://x/cat.png" ⟨404, []⟩ rfl rfl⟩⟩

/-- C7: when the downloaded bytes decode, the decode span records integer
attributes `width` and `height` equal to the decoded image's actual pixel
dimensions (non-negative, being `u32` values cast to `i64`); when decoding
fails, no `width` or `height` attribute is recorded anywhere in the pipeline
run and the decode error propagates. -/
theorem decode_dimension_attributes (env : Env) (url : String) (bytes : List Nat)
    (h1 : (getCatImageUrl env).1 = Except.ok url)
    (h2 : (downloadFile env url).1 = Except.ok bytes) :
    (∀ img, env.decode bytes = Except.ok img →
       Event.setAttribute decodeSpanName "width" (AttrVal.int (Int.ofNat img.width))
         ∈ (getCatAsciiArt env).2 ∧
       Event.setAttribute decodeSpanName "height" (AttrVal.int (Int.ofNat img.height))
         ∈ (getCatAsciiArt env).2 ∧
       0 ≤ Int.ofNat img.width ∧ 0 ≤ Int.ofNat img.height) ∧
    (∀ msg, env.decode bytes = Except.error msg →
       (getCatAsciiArt env).1 = Except.error (PipelineError.decodeFailed msg) ∧
       ∀ s v, Event.setAttribute s "width" v ∉ (getCatAsciiArt env).2 ∧
         Event.setAttribute s "height" v ∉ (getCatAsciiArt env).2) := by
  constructor
  · intro img hdec
    have hstep : decodeStep env bytes
        = (Except.ok img,
           [Event.spanStart decodeSpanName,
            Event.setAttribute decodeSpanName "width" (AttrVal.int (Int.ofNat img.width)),
            Event.setAttribute decodeSpanName "height" (AttrVal.int (Int.ofNat img.height)),
            Event.spanEnd decodeSpanName]) := by
      unfold decodeStep
      rw [hdec]
    refine ⟨?_, ?_, Int.ofNat_nonneg img.width, Int.ofNat_nonneg img.height⟩ <;>
    · unfold getCatAsciiArt
      simp [h1, h2, hstep]
  · intro msg hdec
    have hstep : decodeStep env bytes
        = (Except.error (PipelineError.decodeFailed msg),
           [Event.spanStart decodeSpanName, Event.spanEnd decodeSpanName]) := by
      unfold decodeStep
      rw [hdec]
    have hlog : (getCatAsciiArt env).2 = [Event.spanStart "get_cat_image_url",
        Event.httpGet apiUrl, Event.spanEnd "get_cat_image_url",
        Event.spanStart "download_file", Event.httpGet url, Event.spanEnd "download_file",
        Event.spanStart decodeSpanName, Event.spanEnd decodeSpanName] := by
      unfold getCatAsciiArt
      simp [h1, h2, hstep, getCatImageUrl_log, downloadFile_log]
    refine ⟨?_, ?_⟩
    · unfold getCatAsciiArt
      simp [h1, h2, hstep]
    · intro s v
      rw [hlog]
      constructor <;> simp

theorem decode_dimension_attributes_witness :
    ((getCatImageUrl envHappy).1 = Except.ok "http://x/cat.png" ∧
     (downloadFile envHappy "http://x/cat.png").1 = Except.ok pngBytes ∧
     envHappy.decode pngBytes = Except.ok img10 ∧
     Event.setAttribute decodeSpanName "width" (AttrVal.int (Int.ofNat 10))
       ∈ (getCatAsciiArt envHappy).2 ∧
     Event.setAttribute decodeSpanName "height" (AttrVal.int (Int.ofNat 10))
       ∈ (getCatAsciiArt envHappy).2) ∧
    (envBadImage.decode [0] = Except.error "The image format could not be determined" ∧
     (getCatAsciiArt envBadImage).1
       = Except.error (PipelineError.decodeFailed "The image format could not be determined")) :=
  ⟨⟨rfl, rfl, rfl,
    ((decode_dimension_attributes envHappy "http://x/cat.png" pngBytes rfl rfl).1 img10 rfl).1,
    ((decode_dimension_attributes envHappy "http://x/cat.png" pngBytes rfl rfl).1 img10 rfl).2.1⟩,
   ⟨rfl,
    ((decode_dimension_attributes envBadImage "http://x/cat.png" [0] rfl rfl).2
      "The image format could not be determined" rfl).1⟩⟩

/-- C8 counterexample: a request whose user-agent header is present with the
single (non-visible-ASCII) byte 200 gets the attribute value "" recorded, not
the header's value: the recorded bytes are empty while the header's bytes are
not, so the attribute is not "the value of the request's user-agent header". -/
theorem user_agent_attr_counterexample :
    lookupHeader [(userAgentName, [200])] userAgentName = some [200] ∧
    userAgentAttrBytes [(userAgentName, [200])] = [] ∧
    Event.setAttribute "root_get" "user_agent" (AttrVal.str "")
      ∈ (rootGet envEmptyList [(userAgentName, [200])]).2 ∧
    Event.setAttribute "root_get" "user_agent" (AttrVal.str (bytesToString [200]))
      ∉ (rootGet envEmptyList [(userAgentName, [200])]).2 ∧
    bytesToString [200] ≠ "" := by
  refine ⟨rfl, rfl, by decide, by decide, by decide⟩

/-- C8 amended: `root_get` records a `user_agent` attribute on the root span
for every request; its value is the user-agent header's value when that header
is present and is visible-ASCII text, and the empty string when the header is
absent or its value is not visible-ASCII text. -/
theorem user_agent_attribute (env : Env) (headers : List (String × List Nat)) :
    (lookupHeader headers userAgentName = none → userAgentAttrBytes headers = []) ∧
    (∀ v, lookupHeader headers userAgentName = some v → v.all visibleAscii = true →
       userAgentAttrBytes headers = v) ∧
    (∀ v, lookupHeader headers userAgentName = some v → v.all visibleAscii = false →
       userAgentAttrBytes headers = []) ∧
    Event.setAttribute "root_get" "user_agent"
        (AttrVal.str (bytesToString (userAgentAttrBytes headers)))
      ∈ (rootGet env headers).2 := by
  refine ⟨?_, ?_, ?_, ?_⟩
  · intro h
    unfold userAgentAttrBytes
    rw [h]
  · intro v h hv
    unfold userAgentAttrBytes
    rw [h]
    simp [headerToStr, hv]
  · intro v h hv
    unfold userAgentAttrBytes
    rw [h]
    simp [headerToStr, hv]
  · unfold rootGet
    simp

theorem user_agent_attribute_witness :
    lookupHeader [(userAgentName, [99, 97, 116])] userAgentName = some [99, 97, 116] ∧
    [99, 97, 116].all visibleAscii = true ∧
    userAgentAttrBytes [(userAgentName, [99, 97, 116])] = [99, 97, 116] ∧
    Event.setAttribute "root_get" "user_agent" (AttrVal.str "cat")
      ∈ (rootGet envEmptyList [(userAgentName, [99, 97, 116])]).2 :=
  ⟨rfl, rfl,
   (user_agent_attribute envEmptyList [(userAgentName, [99, 97, 116])]).2.1
     [99, 97, 116] rfl rfl,
   (user_agent_attribute envEmptyList [(userAgentName, [99, 97, 116])]).2.2.2⟩

/-- C9: the `/panic` route is served by a handler that unconditionally panics
with the fixed message "This is a test panic"; its outcome is a task panic,
never a normal HTTP response, and it is not a `PipelineError`-derived response. -/
theorem panic_route_no_response (env : Env) (headers : List (String × List Nat)) :
    route env headers "/panic" = some panicGet ∧
    panicGet = HandlerOutcome.panicked "This is a test panic" ∧
    isResponse panicGet = false :=
  ⟨rfl, rfl, rfl⟩

/-- C10: a request whose user-agent header is present but not visible-ASCII
text does not make header reading fail: the `user_agent` attribute falls back
to the empty string, and the response is the same as for a request with no
headers at all — handling proceeds normally. -/
theorem invalid_user_agent_safe (env : Env) (headers : List (String × List Nat))
    (v : List Nat)
    (h1 : lookupHeader headers userAgentName = some v)
    (h2 : v.all visibleAscii = false) :
    userAgentAttrBytes headers = [] ∧
    Event.setAttribute "root_get" "user_agent" (AttrVal.str "")
      ∈ (rootGet env headers).2 ∧
    (rootGet env headers).1 = (rootGet env []).1 := by
  have hattr : userAgentAttrBytes headers = [] := by
    unfold userAgentAttrBytes
    rw [h1]
    simp [headerToStr, h2]
  refine ⟨hattr, ?_, rfl⟩
  unfold rootGet
  simp [hattr, bytesToString]

theorem invalid_user_agent_safe_witness :
    lookupHeader [(userAgentName, [200])] userAgentName = some [200] ∧
    [200].all visibleAscii = false ∧
    (userAgentAttrBytes [(userAgentName, [200])] = [] ∧
     Event.setAttribute "root_get" "user_agent" (AttrVal.str "")
       ∈ (rootGet envEmptyList [(userAgentName, [200])]).2 ∧
     (rootGet envEmptyList [(userAgentName, [200])]).1 = (rootGet envEmptyList []).1) :=
  ⟨rfl, rfl, invalid_user_agent_safe envEmptyList [(userAgentName, [200])] [200] rfl rfl⟩
